import Mathlib

/-!
Verification of the terminal-session multiplexing example (`examples/term/term.py`)
against its specification.  The example wires a `SingleTermManager` into a
tornado application; the manager / session / bridge core is specified in the
spec's §3–§7 and is modelled here from those sections.  The wiring in
`term.py` (handlers, routes, shutdown sequence) is embedded directly from the
source.
-/

namespace Term

/-- Bytes are modelled as natural numbers; a byte stream is a list. -/
abbrev Byte := Nat

/-- Modelled from the spec: the PTY Process Wrapper (§3, §4.1) — process
handle plus liveness flag; `reapCount` counts how many times the child was
reaped so that "terminated exactly once / no double-reap" is observable. -/
structure PtyProcess where
  alive : Bool
  reapCount : Nat
deriving DecidableEq, Repr

/-- Modelled from the spec: `terminate()` sends a termination signal then
reaps the process; idempotent (§4.1).  A second call on a dead wrapper does
nothing. -/
def PtyProcess.terminate (p : PtyProcess) : PtyProcess :=
  if p.alive then { alive := false, reapCount := p.reapCount + 1 } else p

/-- Modelled from the spec: the Client Connection Bridge (§3, §4.4) —
identifier, the output bytes delivered to it so far in order, and whether its
network channel is still open. -/
structure Bridge where
  id : Nat
  received : List Byte
  openB : Bool
deriving DecidableEq, Repr

/-- Modelled from the spec: writing broadcast output to one bridge's network
channel; fails when the channel is closed (§4.4 failure semantics). -/
def Bridge.writeOut (br : Bridge) (bytes : List Byte) : Except Unit Bridge :=
  if br.openB then .ok { br with received := br.received ++ bytes } else .error ()

/-- The last `c` elements of a list (all of it when it is shorter). -/
def lastN (c : Nat) (l : List Byte) : List Byte :=
  l.drop (l.length - c)

/-- Modelled from the spec: appending produced bytes to the bounded history
buffer — fixed maximum byte length `c`, oldest bytes dropped first (§4.2). -/
def pushHistory (c : Nat) (hist bytes : List Byte) : List Byte :=
  lastN c (hist ++ bytes)

/-- Modelled from the spec: a Session (§3, §4.2) — owned PTY wrapper, bounded
output history buffer with its fixed cap, and the set of attached bridges. -/
structure Session where
  proc : PtyProcess
  history : List Byte
  cap : Nat
  bridges : List Bridge
deriving DecidableEq, Repr

/-- Modelled from the spec: `broadcast_output(bytes)` appends to history and
forwards the bytes to every attached bridge; a write failure on one bridge is
handled bridge-locally and does not affect the others (§4.2, §4.4). -/
def Session.broadcast_output (s : Session) (bytes : List Byte) : Session :=
  { s with
    history := pushHistory s.cap s.history bytes,
    bridges := s.bridges.map (fun br =>
      match br.writeOut bytes with
      | .ok br' => br'
      | .error _ => br) }

/-- Modelled from the spec: `attach(bridge)` registers a bridge as an active
viewer and returns the buffered output history (§4.2). -/
def Session.attach (s : Session) (br : Bridge) : List Byte × Session :=
  (s.history, { s with bridges := s.bridges ++ [br] })

/-- Modelled from the spec: `detach(bridge)` removes the bridge from the
attached set (§4.2); terminating an empty session is the manager's policy
decision, not the session's. -/
def Session.detach (s : Session) (bid : Nat) : Session :=
  { s with bridges := s.bridges.filter (fun br => br.id ≠ bid) }

/-- Modelled from the spec: session teardown on a fatal PTY error — the
process is terminated, and every attached bridge is notified and closed;
the closed bridges are returned and none remains attached (§4.4, §5, §7). -/
def Session.teardown (s : Session) : Session × List Bridge :=
  ({ s with proc := s.proc.terminate, bridges := [] },
   s.bridges.map (fun br => { br with openB := false }))

/-- Modelled from the spec: the outcome of one read on the session's PTY
(§4.1): data, end-of-stream on process exit, or an I/O failure. -/
inductive ReadOutcome where
  | data (bytes : List Byte)
  | eof
  | readFailed
deriving DecidableEq, Repr

/-- Modelled from the spec: the session's reaction to one PTY read — data is
broadcast; process exit and read failure are both fatal to the session and
trigger teardown (§4.4, §5, §7). -/
def Session.onPtyRead (s : Session) (r : ReadOutcome) : Session × List Bridge :=
  match r with
  | .data bytes => (s.broadcast_output bytes, [])
  | .eof => s.teardown
  | .readFailed => s.teardown

/-- Modelled from the spec: session bookkeeping operations a client can
drive: attach a bridge or detach one (§4.2, §8). -/
inductive SessOp where
  | att (br : Bridge)
  | det (bid : Nat)
deriving DecidableEq, Repr

/-- Apply one attach/detach operation to a session. -/
def Session.applySessOp (s : Session) (op : SessOp) : Session :=
  match op with
  | .att br => (s.attach br).2
  | .det bid => s.detach bid

/-- Run a sequence of attach/detach operations on a session. -/
def Session.runOps (s : Session) (ops : List SessOp) : Session :=
  ops.foldl Session.applySessOp s

/-- Modelled from the spec: session-reuse policy of the Session Manager
(§4.3): one shared session for all clients, or one session per client. -/
inductive Policy where
  | singleShared
  | perClient
deriving DecidableEq, Repr

/-- Modelled from the spec: the Session Manager (§3, §4.3) — mapping from
session identifier to Session, fresh-identifier counter, configured spawn
command, history cap and reuse policy. -/
structure TermManager where
  sessions : List (Nat × Session)
  nextId : Nat
  shellCommand : List String
  histCap : Nat
  policy : Policy
deriving DecidableEq, Repr

/-- Modelled from the spec: spawning a fresh Session — a live process that
has never been reaped, empty history, no attached bridges (§3). -/
def newSession (c : Nat) : Session :=
  { proc := { alive := true, reapCount := 0 }, history := [], cap := c, bridges := [] }

/-- Modelled from the spec: `get_or_create(identifier_hint)` (§4.3).  In
single-shared-session mode the hint is ignored, one Session is lazily created
on the first call and returned on every later call; in per-client mode every
call creates a fresh Session under a fresh identifier. -/
def TermManager.get_or_create (m : TermManager) (hint : String) : Session × TermManager :=
  match m.policy with
  | .singleShared =>
    match m.sessions with
    | [] =>
      let s := newSession m.histCap
      (s, { m with sessions := [(m.nextId, s)], nextId := m.nextId + 1 })
    | e :: _ => (e.2, m)
  | .perClient =>
    let s := newSession m.histCap
    (s, { m with sessions := m.sessions ++ [(m.nextId, s)], nextId := m.nextId + 1 })

/-- Modelled from the spec: `shutdown()` terminates every live Session's PTY
Process Wrapper and clears the identifier mapping (§4.3); the terminated
wrappers are returned so terminations can be counted. -/
def TermManager.shutdown (m : TermManager) : TermManager × List PtyProcess :=
  ({ m with sessions := [] }, m.sessions.map (fun e => e.2.proc.terminate))

/-! ## Embedding of `examples/term/term.py` -/

/-- How `loop.start()` in `main` can stop: a normal return, or a
`KeyboardInterrupt` raised into the `try` block (term.py lines 27–30). -/
inductive LoopOutcome where
  | normalExit
  | keyboardInterrupt
deriving DecidableEq, Repr

/-- Observable steps of `main`'s try/except/finally block (term.py 27–33). -/
inductive MainEvent where
  | loopStart
  | printSigintMessage
  | managerShutdown
  | loopClose
deriving DecidableEq, Repr

/-- The sequence of events `main` executes from entering the `try` block,
for each way `loop.start()` stops: the `except KeyboardInterrupt` arm prints,
and the `finally` arm always runs `term_manager.shutdown()` then
`loop.close()` (term.py 27–33). -/
def mainShutdownSequence (r : LoopOutcome) : List MainEvent :=
  match r with
  | .normalExit => [.loopStart, .managerShutdown, .loopClose]
  | .keyboardInterrupt => [.loopStart, .printSigintMessage, .managerShutdown, .loopClose]

/-- A constructed `SingleTermManager`, as configured in `main`
(term.py line 14): only the `shell_command` keyword is passed. -/
structure SingleTermManagerCfg where
  shell_command : List String
deriving DecidableEq, Repr

/-- The handler table entries of the tornado application built in `main`
(term.py 15–19): `TermSocket` bound to a route pattern and a manager
(identified by construction index), or the page handler bound to a route. -/
inductive AppHandler where
  | termSocket (pattern : String) (managerIdx : Nat)
  | terminalPage (pattern : String)
deriving DecidableEq, Repr

/-- The `SingleTermManager` instances `main` constructs, in construction
order (term.py line 14): exactly one, with `shell_command=['bash']`. -/
def mainManagers : List SingleTermManagerCfg :=
  [{ shell_command := ["bash"] }]

/-- The handler table `main` passes to `tornado.web.Application`
(term.py 15–19): `r"/websocket"` → `TermSocket` with `term_manager` the
manager constructed at index 0, and `r"/"` → `TerminalPageHandler`. -/
def mainHandlers : List AppHandler :=
  [.termSocket "/websocket" 0, .terminalPage "/"]

/-- Setup-phase steps of `main` before the event loop runs (term.py 14–23),
in program order. -/
inductive SetupEvent where
  | constructManager (idx : Nat)
  | buildApplication
  | appListen (port : Nat) (host : String)
deriving DecidableEq, Repr

/-- The setup steps `main` performs, in order (term.py 14–23): construct the
single manager, build the application, listen on localhost:8765. -/
def mainSetupEvents : List SetupEvent :=
  [.constructManager 0, .buildApplication, .appListen 8765 "localhost"]

/-- The result of `TerminalPageHandler.get`: a call to `self.render` with a
template name and the `ws_url_path` template argument (term.py 8–10). -/
structure RenderCall where
  template : String
  ws_url_path : String
deriving DecidableEq, Repr

/-- `TerminalPageHandler.get` (term.py 8–10): unconditionally renders
`index.html` with `ws_url_path="/websocket"`. -/
def TerminalPageHandler.get : RenderCall :=
  { template := "index.html", ws_url_path := "/websocket" }

/-- The route patterns that `main` binds to `TermSocket` (term.py 15–17). -/
def termSocketPatterns : List String :=
  mainHandlers.filterMap (fun h =>
    match h with
    | .termSocket p _ => some p
    | .terminalPage _ => none)



/-- The manager-construction indices referenced by the `TermSocket` entries
of the handler table (term.py 15–17). -/
def termSocketManagerIdxs : List Nat :=
  mainHandlers.filterMap (fun h =>
    match h with
    | .termSocket _ i => some i
    | .terminalPage _ => none)

/-- A concrete single-shared-session manager holding no session yet. -/
def mgr0 : TermManager :=
  { sessions := [], nextId := 0, shellCommand := ["bash"], histCap := 4,
    policy := .singleShared }

/-- A concrete manager holding three live sessions, one attached bridge each. -/
def mgr3 : TermManager :=
  { sessions :=
      [(0, { proc := ⟨true, 0⟩, history := [], cap := 4, bridges := [⟨0, [], true⟩] }),
       (1, { proc := ⟨true, 0⟩, history := [], cap := 4, bridges := [⟨1, [], true⟩] }),
       (2, { proc := ⟨true, 0⟩, history := [], cap := 4, bridges := [⟨2, [], true⟩] })],
    nextId := 3, shellCommand := ["bash"], histCap := 4, policy := .singleShared }

/-- A concrete session with one open and one closed attached bridge. -/
def sesW : Session :=
  { proc := ⟨true, 0⟩, history := [], cap := 8,
    bridges := [⟨0, [], true⟩, ⟨1, [], false⟩] }

/-! ## Helper lemmas -/

theorem length_lastN (c : Nat) (l : List Byte) : (lastN c l).length = min c l.length := by
  simp only [lastN, List.length_drop]
  omega

theorem lastN_append_of_le (c : Nat) (t x : List Byte) (h : c ≤ x.length) :
    lastN c (t ++ x) = lastN c x := by
  simp only [lastN, List.length_append]
  rw [show t.length + x.length - c = t.length + (x.length - c) from by omega,
    List.drop_append]

theorem lastN_lastN_append (c : Nat) (a b : List Byte) :
    lastN c (lastN c a ++ b) = lastN c (a ++ b) := by
  by_cases h : a.length ≤ c
  · have h0 : a.length - c = 0 := by omega
    simp [lastN, h0]
  · push_neg at h
    have hx : c ≤ (a.drop (a.length - c) ++ b).length := by
      simp only [List.length_append, List.length_drop]
      omega
    conv_rhs => rw [← List.take_append_drop (a.length - c) a, List.append_assoc]
    rw [lastN_append_of_le c (a.take (a.length - c)) (a.drop (a.length - c) ++ b) hx]
    rfl

theorem foldl_pushHistory (c : Nat) (chunks : List (List Byte)) (a : List Byte) :
    chunks.foldl (pushHistory c) (lastN c a) = lastN c (a ++ chunks.flatten) := by
  induction chunks generalizing a with
  | nil => simp
  | cons ch chs ih =>
    have hstep : pushHistory c (lastN c a) ch = lastN c (a ++ ch) :=
      lastN_lastN_append c a ch
    simp only [List.foldl_cons, List.flatten_cons, hstep, ih (a ++ ch), List.append_assoc]

theorem broadcast_cap (s : Session) (bytes : List Byte) :
    (s.broadcast_output bytes).cap = s.cap := rfl

theorem foldl_broadcast_cap (chunks : List (List Byte)) (s : Session) :
    (chunks.foldl Session.broadcast_output s).cap = s.cap := by
  induction chunks generalizing s with
  | nil => rfl
  | cons ch chs ih => simpa using ih (s.broadcast_output ch)

theorem foldl_broadcast_history (chunks : List (List Byte)) (s : Session) :
    (chunks.foldl Session.broadcast_output s).history =
      chunks.foldl (pushHistory s.cap) s.history := by
  induction chunks generalizing s with
  | nil => rfl
  | cons ch chs ih => simpa using ih (s.broadcast_output ch)

theorem applySessOp_proc (s : Session) (op : SessOp) :
    (s.applySessOp op).proc = s.proc := by
  cases op <;> rfl

theorem runOps_proc (s : Session) (ops : List SessOp) :
    (s.runOps ops).proc = s.proc := by
  induction ops generalizing s with
  | nil => rfl
  | cons op ops ih =>
    have h := ih (s.applySessOp op)
    simpa [Session.runOps, applySessOp_proc] using h

/-! ## Claim theorems -/

/-- Claim C1: in single-shared-session mode `get_or_create` ignores its
identifier hint, lazily creates exactly one Session on the first call,
returns that same Session (and an unchanged manager) on every subsequent
call, and attach/detach activity never touches the underlying process, so
the Session is only torn down by an explicit shutdown. -/
theorem C1_single_shared_session (m : TermManager) (hpol : m.policy = .singleShared)
    (h1 h2 : String) :
    m.get_or_create h1 = m.get_or_create h2 ∧
    (m.sessions = [] →
      (m.get_or_create h1).2.sessions.map Prod.snd = [(m.get_or_create h1).1]) ∧
    (m.get_or_create h1).2.get_or_create h2 =
      ((m.get_or_create h1).1, (m.get_or_create h1).2) ∧
    ∀ ops : List SessOp,
      (((m.get_or_create h1).1).runOps ops).proc = ((m.get_or_create h1).1).proc := by
  cases hm : m.sessions with
  | nil =>
    refine ⟨?_, ?_, ?_, fun ops => runOps_proc _ ops⟩ <;>
      simp [TermManager.get_or_create, hpol, hm]
  | cons e rest =>
    refine ⟨?_, ?_, ?_, fun ops => runOps_proc _ ops⟩ <;>
      simp [TermManager.get_or_create, hpol, hm]

/-- Witness for C1 at a concrete empty single-shared manager and two
distinct hints, with a concrete attach/detach sequence. -/
theorem C1_single_shared_session_witness :
    mgr0.get_or_create "a" = mgr0.get_or_create "b" ∧
    (mgr0.get_or_create "a").2.sessions.map Prod.snd = [(mgr0.get_or_create "a").1] ∧
    (mgr0.get_or_create "a").2.get_or_create "b" =
      ((mgr0.get_or_create "a").1, (mgr0.get_or_create "a").2) ∧
    ((mgr0.get_or_create "a").1.runOps [.att ⟨7, [], true⟩, .det 7]).proc =
      ((mgr0.get_or_create "a").1).proc :=
  ⟨(C1_single_shared_session mgr0 rfl "a" "b").1,
   (C1_single_shared_session mgr0 rfl "a" "b").2.1 rfl,
   (C1_single_shared_session mgr0 rfl "a" "b").2.2.1,
   (C1_single_shared_session mgr0 rfl "a" "b").2.2.2 [.att ⟨7, [], true⟩, .det 7]⟩

/-- Claim C2: `shutdown()` clears the identifier mapping, is safe for any
number of live sessions, and terminates every spawned (live, never-reaped)
process exactly once — no orphans, no double termination. -/
theorem C2_shutdown_terminates_all (m : TermManager)
    (h : ∀ e ∈ m.sessions, e.2.proc.alive = true ∧ e.2.proc.reapCount = 0) :
    (m.shutdown).1.sessions = [] ∧
    (m.shutdown).2.length = m.sessions.length ∧
    ∀ q ∈ (m.shutdown).2, q.reapCount = 1 ∧ q.alive = false := by
  refine ⟨rfl, by simp [TermManager.shutdown], ?_⟩
  intro q hq
  obtain ⟨e, he, rfl⟩ := List.mem_map.1 hq
  obtain ⟨ha, hr⟩ := h e he
  simp [PtyProcess.terminate, ha, hr]

/-- Witness for C2: shutting down a manager with three live sessions (one
attached bridge each) empties the mapping, produces three terminations, and
each terminated wrapper was reaped exactly once. -/
theorem C2_shutdown_terminates_all_witness :
    (mgr3.shutdown).1.sessions = [] ∧
    (mgr3.shutdown).2.length = mgr3.sessions.length ∧
    (({ alive := false, reapCount := 1 } : PtyProcess).reapCount = 1 ∧
     ({ alive := false, reapCount := 1 } : PtyProcess).alive = false) :=
  ⟨(C2_shutdown_terminates_all mgr3 (by decide)).1,
   (C2_shutdown_terminates_all mgr3 (by decide)).2.1,
   (C2_shutdown_terminates_all mgr3 (by decide)).2.2 ⟨false, 1⟩ (by decide)⟩

/-- Claim C3: a bridge that attaches after the PTY has produced the given
chunks receives exactly the last min(N, cap) bytes of the concatenated
output, byte-for-byte, oldest bytes dropped first. -/
theorem C3_history_replay (c : Nat) (chunks : List (List Byte)) (br : Bridge) :
    ((chunks.foldl Session.broadcast_output (newSession c)).attach br).1 =
      chunks.flatten.drop (chunks.flatten.length - c) ∧
    ((chunks.foldl Session.broadcast_output (newSession c)).attach br).1.length =
      min chunks.flatten.length c := by
  have hhist : ((chunks.foldl Session.broadcast_output (newSession c)).attach br).1 =
      chunks.foldl (pushHistory c) [] := by
    show (chunks.foldl Session.broadcast_output (newSession c)).history = _
    rw [foldl_broadcast_history]
    rfl
  have hmain : chunks.foldl (pushHistory c) [] = lastN c chunks.flatten := by
    have h0 := foldl_pushHistory c chunks []
    simpa [lastN] using h0
  constructor
  · rw [hhist, hmain]; rfl
  · rw [hhist, hmain, length_lastN]; omega

/-- Claim C4: output is delivered to each attached open bridge in PTY
production order: broadcasting B1 and then B2 leaves the bridge holding its
earlier bytes followed by B1 and then B2, never reordered or interleaved. -/
theorem C4_output_ordering (s : Session) (br : Bridge) (hbr : br ∈ s.bridges)
    (hopen : br.openB = true) (B1 B2 : List Byte) :
    ({ br with received := br.received ++ B1 ++ B2 } : Bridge) ∈
      ((s.broadcast_output B1).broadcast_output B2).bridges := by
  have hm1 := List.mem_map_of_mem
    (fun b : Bridge => match b.writeOut B1 with | .ok b2 => b2 | .error _ => b) hbr
  have h1 : ({ br with received := br.received ++ B1 } : Bridge) ∈
      (s.broadcast_output B1).bridges := by
    simpa [Session.broadcast_output, Bridge.writeOut, hopen] using hm1
  have hm2 := List.mem_map_of_mem
    (fun b : Bridge => match b.writeOut B2 with | .ok b2 => b2 | .error _ => b) h1
  simpa [Session.broadcast_output, Bridge.writeOut, hopen] using hm2

/-- Witness for C4: in a session with an open and a closed bridge, the open
bridge receives the chunks [1] then [2] in order. -/
theorem C4_output_ordering_witness :
    ({ id := 0, received := ([] : List Byte) ++ [1] ++ [2], openB := true } : Bridge) ∈
      ((sesW.broadcast_output [1]).broadcast_output [2]).bridges :=
  C4_output_ordering sesW ⟨0, [], true⟩ (by decide) rfl [1] [2]

/-- Claim C5: a write failure on one attached bridge (closed channel) does
not prevent another attached bridge from receiving the broadcast output;
bridge-local errors never escalate to the Session. -/
theorem C5_bridge_isolation (s : Session) (bytes : List Byte) (bA bB : Bridge)
    (hA : bA ∈ s.bridges) (hAfail : bA.writeOut bytes = .error ())
    (hB : bB ∈ s.bridges) (hBopen : bB.openB = true) :
    ({ bB with received := bB.received ++ bytes } : Bridge) ∈
      (s.broadcast_output bytes).bridges := by
  have hm := List.mem_map_of_mem
    (fun b : Bridge => match b.writeOut bytes with | .ok b2 => b2 | .error _ => b) hB
  simpa [Session.broadcast_output, Bridge.writeOut, hBopen] using hm

/-- Witness for C5: bridge 1 of the concrete session has a closed channel and
its write fails, yet bridge 0 still receives the broadcast byte. -/
theorem C5_bridge_isolation_witness :
    ({ id := 0, received := ([] : List Byte) ++ [9], openB := true } : Bridge) ∈
      (sesW.broadcast_output [9]).bridges :=
  C5_bridge_isolation sesW [9] ⟨1, [], false⟩ ⟨0, [], true⟩ (by decide) rfl (by decide) rfl

/-- Claim C6: a failed PTY read, or end-of-stream on process exit, is fatal
to the Session: the process is terminated, the attached-bridge set becomes
empty, and every previously attached bridge is notified and closed. -/
theorem C6_pty_failure_fatal (s : Session) (r : ReadOutcome)
    (h : r = .readFailed ∨ r = .eof) :
    (s.onPtyRead r).1.bridges = [] ∧
    (s.onPtyRead r).1.proc = s.proc.terminate ∧
    (s.onPtyRead r).2.length = s.bridges.length ∧
    ∀ br ∈ (s.onPtyRead r).2, br.openB = false := by
  have hgen : ∀ br ∈ (s.teardown).2, br.openB = false := by
    intro br hbr
    obtain ⟨b, hb, rfl⟩ := List.mem_map.1 hbr
    rfl
  rcases h with h | h <;> subst h <;>
    exact ⟨rfl, rfl, by simp [Session.onPtyRead, Session.teardown], hgen⟩

/-- Witness for C6: a read failure on the concrete two-bridge session empties
its bridge set, terminates its process, closes both bridges, and the first
notified bridge is closed. -/
theorem C6_pty_failure_fatal_witness :
    (sesW.onPtyRead .readFailed).1.bridges = [] ∧
    (sesW.onPtyRead .readFailed).1.proc = sesW.proc.terminate ∧
    (sesW.onPtyRead .readFailed).2.length = sesW.bridges.length ∧
    ({ id := 0, received := [], openB := false } : Bridge).openB = false :=
  ⟨(C6_pty_failure_fatal sesW .readFailed (Or.inl rfl)).1,
   (C6_pty_failure_fatal sesW .readFailed (Or.inl rfl)).2.1,
   (C6_pty_failure_fatal sesW .readFailed (Or.inl rfl)).2.2.1,
   (C6_pty_failure_fatal sesW .readFailed (Or.inl rfl)).2.2.2 ⟨0, [], false⟩ (by decide)⟩

/-- Claim C7: `terminate()` on a PTY Process Wrapper is idempotent — a second
call on an already-terminated wrapper changes nothing and does not reap the
process a second time. -/
theorem C7_terminate_idempotent (p : PtyProcess) :
    p.terminate.terminate = p.terminate ∧
    p.terminate.terminate.reapCount = p.terminate.reapCount := by
  constructor <;>
    · unfold PtyProcess.terminate
      by_cases h : p.alive <;> simp [h]

/-- Claim C8: whether the event loop stops normally or by KeyboardInterrupt,
`main` runs the manager shutdown exactly once, before closing the loop. -/
theorem C8_shutdown_always_runs (r : LoopOutcome) :
    (mainShutdownSequence r).count .managerShutdown = 1 ∧
    (mainShutdownSequence r).count .loopClose = 1 ∧
    (mainShutdownSequence r).indexOf .managerShutdown <
      (mainShutdownSequence r).indexOf .loopClose := by
  cases r <;> exact ⟨by decide, by decide, by decide⟩

/-- Claim C9: `main` constructs exactly one SingleTermManager, configured
with shell command bash, before the application starts listening, and every
TermSocket entry of the handler table is wired to that one manager. -/
theorem C9_single_manager_wiring :
    mainManagers.length = 1 ∧
    mainManagers = [{ shell_command := ["bash"] }] ∧
    termSocketManagerIdxs = [0] ∧
    mainSetupEvents.indexOf (.constructManager 0) <
      mainSetupEvents.indexOf (.appListen 8765 "localhost") :=
  ⟨rfl, rfl, rfl, by decide⟩

/-- Claim C10: `TerminalPageHandler.get` always renders index.html with
`ws_url_path` equal to "/websocket", and that string is exactly the route
pattern the application binds to TermSocket. -/
theorem C10_ws_url_matches_route :
    TerminalPageHandler.get.template = "index.html" ∧
    TerminalPageHandler.get.ws_url_path = "/websocket" ∧
    termSocketPatterns = [TerminalPageHandler.get.ws_url_path] :=
  ⟨rfl, rfl, rfl⟩

end Term
